import Mathlib

/-!
Verification development for the BQMCPServer repository: two API-client
adapters (a BigQuery query adapter in `bqMCPServer.py` and a Reddit read
adapter in `RedditMCPServer/RedditMCP.py`) exposed as tool endpoints.

The embedding is shallow: Python strings become `List Char` / `String`,
the regular-expression substitutions of `query_bigquery` are modeled by an
explicit scanner with the exact semantics of the four patterns appearing in
the source, client SDK calls become oracle functions returning `Except`
(an `Except.error` models a raised Python exception carrying `str(e)`),
and JSON documents produced with `json.dumps` are modeled by a JSON value
tree (`JVal`); the spec declares response pretty-printing out of scope, so
the exact serialized text of JSON documents is not modeled.  All
definitions are executable; scanners use a fuel argument (always called
with sufficient fuel) so that concrete runs reduce by `rfl`/`decide`.
Numeric fields that are Python floats (upvote ratio, UTC timestamps) are
carried opaquely as rationals; no claim computes with them.
-/

/-! # Definitions -/

/-! ## Character classes

`isWordChar` is Python's `\w` restricted to ASCII (the identifier class in
the source patterns is explicitly `[a-zA-Z0-9_]`); `isSpaceChar` is
Python's `\s` on ASCII; `isIdentStart` is the class `[a-zA-Z_]`. -/

def isWordChar (c : Char) : Bool :=
  c.isAlpha || c.isDigit || c == '_'

def isSpaceChar (c : Char) : Bool :=
  c == ' ' || c == '\t' || c == '\n' || c == '\x0d' || c == '\x0b' || c == '\x0c'

def isIdentStart (c : Char) : Bool :=
  c.isAlpha || c == '_'

/-- A nonempty run of `[a-zA-Z_][a-zA-Z0-9_]*`, i.e. the text a capture
group `([a-zA-Z_][a-zA-Z0-9_]*)` can bind. -/
def validIdent : List Char → Bool
  | [] => false
  | c :: cs => isIdentStart c && cs.all isWordChar

/-! ## Substring containment (Python's `in` operator on `str`) -/

/-- `listStartsWith n l` : `n` is a prefix of `l` (character-exact). -/
def listStartsWith : List Char → List Char → Bool
  | [], _ => true
  | _ :: _, [] => false
  | a :: as, b :: bs => a == b && listStartsWith as bs

/-- `containsSub n h` models Python's `n in h` on strings. -/
def containsSub (n : List Char) : List Char → Bool
  | [] => n.isEmpty
  | b :: bs => listStartsWith n (b :: bs) || containsSub n bs

/-- String-level wrapper: `strContains h n` is Python's `n in h`. -/
def strContains (h n : String) : Bool :=
  containsSub n.data h.data

/-! ## The four substitution patterns of `query_bigquery`

Source (`bqMCPServer.py`, lines 97-106): four `re.sub` calls with
`flags=re.IGNORECASE`, applied in order:

  `\bFROM\s+([a-zA-Z_][a-zA-Z0-9_]*)\b`  ->  `FROM ` + backtick + fq + `.\1` + backtick
  `\bINTO\s+...`, `\bUPDATE\s+...` likewise, and
  `\bTABLE\s+(?!IF\s+EXISTS)([a-zA-Z_][a-zA-Z0-9_]*)\b` for `TABLE`,

where fq is `f"{PROJECT_ID}.{DATASET_ID}"`.  Because the capture group is
greedy over word characters, the trailing `\b` is always satisfied, and
because no pattern element after `\s+` can match a whitespace character,
the regex backtracking semantics coincide with maximal-munch scanning,
which is what `tryMatch` implements. -/

structure RewritePattern where
  keyword : List Char
  checkIfExists : Bool
  replPre : List Char
  replSuf : List Char

/-- Case-insensitive literal keyword match at the head of the input;
returns the remaining input on success. -/
def matchKeywordCI : List Char → List Char → Option (List Char)
  | [], l => some l
  | _ :: _, [] => none
  | k :: ks, c :: cs => if c.toLower == k.toLower then matchKeywordCI ks cs else none

/-- The lookahead body `IF\s+EXISTS` (case-insensitive) matched at the head
of the input. -/
def matchIfExists (l : List Char) : Bool :=
  match matchKeywordCI ['I', 'F'] l with
  | none => false
  | some r1 =>
    match r1.takeWhile isSpaceChar with
    | [] => false
    | _ :: _ =>
      match matchKeywordCI ['E', 'X', 'I', 'S', 'T', 'S'] (r1.dropWhile isSpaceChar) with
      | none => false
      | some _ => true

/-- `\b` immediately before the keyword: since every keyword starts with a
word character, the boundary holds iff the preceding character (if any) is
not a word character. -/
def boundaryOk (prev : Option Char) : Bool :=
  match prev with
  | none => true
  | some p => !(isWordChar p)

/-- Attempt to match one pattern anchored at the current scan position.
`prev` is the character of the *original* string just before this
position (`none` at the start of the string).  On success, returns the
captured identifier (group 1) and the input remaining after the match. -/
def tryMatch (pat : RewritePattern) (prev : Option Char) (l : List Char) :
    Option (List Char × List Char) :=
  if boundaryOk prev then
    match matchKeywordCI pat.keyword l with
    | none => none
    | some r1 =>
      match r1.takeWhile isSpaceChar with
      | [] => none
      | _ :: _ =>
        let r2 := r1.dropWhile isSpaceChar
        if pat.checkIfExists && matchIfExists r2 then none
        else
          match r2 with
          | [] => none
          | c :: cs =>
            if isIdentStart c then
              some (c :: cs.takeWhile isWordChar, cs.dropWhile isWordChar)
            else none
  else none

/-- The `re.sub` scan: walk the string left to right; at each position try
the pattern; on a match emit the replacement (`replPre ++ group1 ++
replSuf`) and resume scanning after the matched span, otherwise emit the
character and advance by one.  The fuel argument makes the recursion
structural; every call site supplies fuel at least the length of the
input, which is always sufficient since each step consumes at least one
character. -/
def subScanF (pat : RewritePattern) : Nat → Option Char → List Char → List Char
  | 0, _, l => l
  | _ + 1, _, [] => []
  | fuel + 1, prev, c :: cs =>
    match tryMatch pat prev (c :: cs) with
    | some (ident, rest) =>
      pat.replPre ++ ident ++ pat.replSuf ++
        subScanF pat fuel (some (ident.getLastD c)) rest
    | none => c :: subScanF pat fuel (some c) cs

/-- One `re.sub(pattern, replacement, query, flags=re.IGNORECASE)` call. -/
def reSub (pat : RewritePattern) (l : List Char) : List Char :=
  subScanF pat l.length none l

/-- Pattern 1: `\bFROM\s+([a-zA-Z_][a-zA-Z0-9_]*)\b`. -/
def fromPat (fq : List Char) : RewritePattern :=
  ⟨"FROM".data, false, "FROM `".data ++ fq ++ ".".data, "`".data⟩

/-- Pattern 2: `\bINTO\s+([a-zA-Z_][a-zA-Z0-9_]*)\b`. -/
def intoPat (fq : List Char) : RewritePattern :=
  ⟨"INTO".data, false, "INTO `".data ++ fq ++ ".".data, "`".data⟩

/-- Pattern 3: `\bUPDATE\s+([a-zA-Z_][a-zA-Z0-9_]*)\b`. -/
def updatePat (fq : List Char) : RewritePattern :=
  ⟨"UPDATE".data, false, "UPDATE `".data ++ fq ++ ".".data, "`".data⟩

/-- Pattern 4: `\bTABLE\s+(?!IF\s+EXISTS)([a-zA-Z_][a-zA-Z0-9_]*)\b`. -/
def tablePat (fq : List Char) : RewritePattern :=
  ⟨"TABLE".data, true, "TABLE `".data ++ fq ++ ".".data, "`".data⟩

/-- The pattern list of the source, in source order, parameterized by the
fully qualified prefix `fq` (`project.dataset`). -/
def mkPatterns (fq : List Char) : List RewritePattern :=
  [fromPat fq, intoPat fq, updatePat fq, tablePat fq]

/-- The table-reference auto-qualification step of `query_bigquery`
(lines 97-106): if the query already contains the fully qualified
`project.dataset` prefix it is returned unchanged, otherwise the four
substitutions are applied in order. -/
def autoQualifyL (fq : List Char) (q : List Char) : List Char :=
  if containsSub fq q then q
  else (mkPatterns fq).foldl (fun acc pat => reSub pat acc) q

/-- String-level wrapper of the auto-qualification step. -/
def autoQualify (projectId datasetId : String) (query : String) : String :=
  String.mk (autoQualifyL (projectId.data ++ ".".data ++ datasetId.data) query.data)

/-! ## Static analysis helpers for the scanner

These are used to prove general statements about the scanner (for
arbitrary identifiers): `kwWithin` reports whether a keyword match is
certain to fail / certain to consume a known prefix, looking only at a
finite prefix of the scanned text; `tryMatchFailsWithin` certifies that a
match attempt fails no matter what follows the prefix; `allSplitsFail`
states that no scan position inside a segment can start a match. -/

inductive KwRes where
  | fail
  | unknown
  | ok (rest : List Char)
deriving DecidableEq

/-- Keyword matching restricted to a known prefix `x` of the text:
`.ok r` means the keyword surely consumes `x` up to remainder `r`,
`.fail` means it surely mismatches inside `x`, `.unknown` means `x` is too
short to tell. -/
def kwWithin : List Char → List Char → KwRes
  | [], x => .ok x
  | _ :: _, [] => .unknown
  | k :: ks, c :: cs => if c.toLower == k.toLower then kwWithin ks cs else .fail

/-- Certifies, looking only at the prefix `x`, that `tryMatch` fails at
this position for every continuation of the text (conservative: returns
`false` when undetermined). -/
def tryMatchFailsWithin (pat : RewritePattern) (prev : Option Char) (x : List Char) : Bool :=
  if boundaryOk prev then
    match kwWithin pat.keyword x with
    | .fail => true
    | .unknown => false
    | .ok r =>
      match r with
      | [] => false
      | c :: _ => !(isSpaceChar c)
  else true

/-- The character just before the scan position reached after consuming
`pre`, starting from a position preceded by `prev`. -/
def prevAt (prev : Option Char) : List Char → Option Char
  | [] => prev
  | c :: cs => prevAt (some c) cs

/-- No scan position inside `pre` (with the text continuing as `suf`)
starts a match of `pat`. -/
def allSplitsFail (pat : RewritePattern) (prev : Option Char) : List Char → List Char → Bool
  | [], _ => true
  | c :: pre, suf =>
    (tryMatch pat prev (c :: (pre ++ suf))).isNone && allSplitsFail pat (some c) pre suf

/-- Prefix-only version of `allSplitsFail`: certifies that no position in
`pre` can start a match regardless of what follows `pre`. -/
def allSplitsFailWithin (pat : RewritePattern) (prev : Option Char) : List Char → Bool
  | [] => true
  | c :: cs => tryMatchFailsWithin pat prev (c :: cs) && allSplitsFailWithin pat (some c) cs

/-! ## BigQuery adapter model (`bqMCPServer.py`)

The source hardcodes `PROJECT_ID` and `DATASET_ID` as bracketed
placeholder strings; the spec refers to them as `project` and `dataset`,
which is how the claims name them, so the model uses those values. -/

def PROJECT_ID : String := "project"

def DATASET_ID : String := "dataset"

/-- Which of the three authentication strategies of
`get_bigquery_client` are available: a service account file at the
hardcoded path, the `GOOGLE_APPLICATION_CREDENTIALS` environment
variable, and ambient application default credentials (the third is the
one the source wraps in try/except, so it is the one with an explicit
failure mode). -/
structure BQEnv where
  serviceAccountFileExists : Bool
  envCredentialsSet : Bool
  adcAvailable : Bool

/-- Process state of the adapter: the memoized `_bq_client` global
(client instances are identified by a number) and a counter of how many
times an authentication strategy constructed a client. -/
structure BQState where
  bqClient : Option Nat
  authCalls : Nat
deriving DecidableEq

/-- The message of the exception raised when no authentication method is
available (lines 49-54 of the source). -/
def authErrorText : String :=
  "No authentication found. Please either:\n1. Set the service account path in the code\n2. Set GOOGLE_APPLICATION_CREDENTIALS environment variable\n3. Run 'gcloud auth application-default login'"

/-- `get_bigquery_client` (lines 22-54): return the cached client if
present, otherwise try the three authentication strategies in order,
caching and returning the freshly constructed client, and raise
(`Except.error`) only when all three are unavailable. -/
def get_bigquery_client (env : BQEnv) (s : BQState) : Except String (Nat × BQState) :=
  match s.bqClient with
  | some c => .ok (c, s)
  | none =>
    if env.serviceAccountFileExists then
      .ok (s.authCalls, { bqClient := some s.authCalls, authCalls := s.authCalls + 1 })
    else if env.envCredentialsSet then
      .ok (s.authCalls, { bqClient := some s.authCalls, authCalls := s.authCalls + 1 })
    else if env.adcAvailable then
      .ok (s.authCalls, { bqClient := some s.authCalls, authCalls := s.authCalls + 1 })
    else
      .error authErrorText

/-- Abstract result of a successfully executed query job: total row
count, the schema as (name, field type) pairs, the rows as mappings whose
values are already stringified (the source serializes with
`default=str`), and `num_dml_affected_rows` (`none` models the attribute
being `None`). -/
structure ExecOutcome where
  totalRows : Nat
  schema : List (String × String)
  rows : List (List (String × String))
  numDmlAffectedRows : Option Nat

/-- Decimal digit character. -/
def digitChar : Nat → Char
  | 0 => '0' | 1 => '1' | 2 => '2' | 3 => '3' | 4 => '4'
  | 5 => '5' | 6 => '6' | 7 => '7' | 8 => '8' | _ => '9'

/-- Decimal digits of a natural number (fuel-structural; fuel `n + 1` is
always enough since the argument shrinks by a factor of ten). -/
def natDigitsAux : Nat → Nat → List Char
  | 0, _ => []
  | fuel + 1, n => if n < 10 then [digitChar n] else natDigitsAux fuel (n / 10) ++ [digitChar (n % 10)]

/-- Python's `str` on a non-negative `int`, as used by the f-strings of
the source. -/
def natStr (n : Nat) : String :=
  String.mk (natDigitsAux (n + 1) n)

/-- Simple JSON rendering of one row mapping; models
`json.dumps(row, default=str)` content-wise (exact pretty-printing is out
of scope per the spec). -/
def dumpsRow : List (String × String) → String
  | [] => ""
  | [f] => "\"" ++ f.1 ++ "\": \"" ++ f.2 ++ "\""
  | f :: fs => "\"" ++ f.1 ++ "\": \"" ++ f.2 ++ "\", " ++ dumpsRow fs

/-- Simple JSON rendering of the row list; models
`json.dumps(rows, indent=2, default=str)` content-wise. -/
def dumpsRows : List (List (String × String)) → String
  | [] => "[]"
  | [r] => "[\x7b " ++ dumpsRow r ++ " \x7d]"
  | r :: rs => "[\x7b " ++ dumpsRow r ++ " \x7d, " ++ (dumpsRows rs).drop 1

/-- The schema listing block of a read response: one
`  - name: field_type` line per field. -/
def schemaLines : List (String × String) → String
  | [] => ""
  | f :: fs => "  - " ++ f.1 ++ ": " ++ f.2 ++ "\n" ++ schemaLines fs

/-- Python's `str.strip()` on ASCII text: drop whitespace from both
ends. -/
def pyStrip (l : List Char) : List Char :=
  ((l.dropWhile isSpaceChar).reverse.dropWhile isSpaceChar).reverse

/-- The classification of lines 120-122 of the source: uppercase the
(rewritten) statement (`query.upper()`), strip surrounding whitespace
(`.strip()`), and test `startswith(('SELECT', 'WITH'))`. -/
def isReadQuery (q : String) : Bool :=
  let u := pyStrip (q.data.map Char.toUpper)
  listStartsWith "SELECT".data u || listStartsWith "WITH".data u

/-- The note appended for a mutating statement: present exactly when
`num_dml_affected_rows` is truthy in Python, i.e. non-`None` and
nonzero. -/
def affectedNote : Option Nat → String
  | some n => if n == 0 then "" else " Affected " ++ natStr n ++ " rows."
  | none => ""

/-- Response formatting of `query_bigquery` (lines 119-140), mirroring
the accumulating `response += ...` structure of the source.  `q` is the
(rewritten) executed statement. -/
def formatQueryResponse (q : String) (o : ExecOutcome) : String :=
  if isReadQuery q then
    let r0 := "Query executed successfully. Found " ++ natStr o.totalRows ++ " rows.\n\n"
    let r1 := r0 ++ "Schema:\n"
    let r2 := o.schema.foldl (fun acc f => acc ++ "  - " ++ f.1 ++ ": " ++ f.2 ++ "\n") r1
    let r3 := r2 ++ "\nResults:\n"
    r3 ++ dumpsRows o.rows
  else
    let r := "Query executed successfully."
    match o.numDmlAffectedRows with
    | some n => if n == 0 then r else r ++ " Affected " ++ natStr n ++ " rows."
    | none => r

/-- `query_bigquery` (lines 83-143).  Client acquisition happens outside
the try block, so its failure propagates as `Except.error`; the query is
then auto-qualified and submitted, and any execution fault (the `exec`
oracle returning `Except.error e`, standing for any exception raised
inside the try block) is caught and reported as the string
`Query failed: {e}`. -/
def query_bigquery (env : BQEnv) (exec : String → Except String ExecOutcome)
    (s : BQState) (query : String) : Except String (String × BQState) :=
  match get_bigquery_client env s with
  | .error e => .error e
  | .ok (_, s1) =>
    let q := autoQualify PROJECT_ID DATASET_ID query
    match exec q with
    | .ok o => .ok (formatQueryResponse q o, s1)
    | .error e => .ok ("Query failed: " ++ e, s1)

/-! ## Reddit adapter model (`RedditMCPServer/RedditMCP.py`)

The praw client is lazy: constructing `praw.Reddit(...)` and the
`reddit.subreddit(name)` handle performs no API interaction; requests
happen when a listing/submission/search is actually consumed.  The model
therefore represents the client as a bundle of oracle functions, one per
API fetch the four operations perform; `Except.error e` stands for any
exception raised by the underlying client during that fetch (caught by
the operation's try/except).  JSON output is modeled as a `JVal` tree;
`json.dumps` pretty-printing is out of scope per the spec. -/

inductive JVal where
  | null
  | bool (b : Bool)
  | int (n : Int)
  | num (q : Rat)
  | str (s : String)
  | arr (xs : List JVal)
  | obj (fields : List (String × JVal))

/-- An optional string field: Python `None` serializes as JSON null. -/
def jstrOpt : Option String → JVal
  | some s => .str s
  | none => .null

/-- Field lookup in a JSON object (first occurrence). -/
def jlookup : List (String × JVal) → String → Option JVal
  | [], _ => none
  | f :: fs, k => if f.1 == k then some f.2 else jlookup fs k

/-- Field lookup on a JSON value. -/
def jfield (j : JVal) (k : String) : Option JVal :=
  match j with
  | .obj fs => jlookup fs k
  | _ => none

/-- The truncation idiom of the source:
`s[:limit] + "..." if len(s) > limit else s`. -/
def truncateText (limit : Nat) (s : String) : String :=
  if s.length > limit then String.mk (s.data.take limit) ++ "..." else s

/-- `s` ends with the suffix `suf`. -/
def strEndsWith (s suf : String) : Bool :=
  listStartsWith suf.data.reverse s.data.reverse

/-- The submission attributes the source reads.  `author`/`link_flair_text`
/`distinguished` are `none` when the Python attribute is `None`; floats
are carried as rationals. -/
structure RawPost where
  id : String
  title : String
  author : Option String
  subreddit : String
  score : Int
  upvoteRatioVal : Rat
  num_comments : Int
  created_utc : Rat
  url : String
  permalink : String
  selftext : String
  is_self : Bool
  over_18 : Bool
  spoiler : Bool
  stickied : Bool
  link_flair_text : Option String
  gilded : Int
  distinguished : Option String

/-- The comment attributes the source reads. -/
structure RawComment where
  id : String
  author : Option String
  body : String
  score : Int
  created_utc : Rat
  is_submitter : Bool
  stickied : Bool
  gilded : Int

/-- A node of the top-level comment forest: a real comment (which has a
`body` attribute) or a "load more comments" placeholder (which does
not). -/
inductive CommentNode where
  | comment (c : RawComment)
  | more

/-- The subreddit attributes the source reads. -/
structure RawSubreddit where
  display_name : String
  title : String
  description : String
  subscribers : Int
  active_user_count : Int
  created_utc : Rat
  over18 : Bool
  public_description : String
  subreddit_type : String
  lang : String

/-- A listing request against a subreddit, i.e. which of
`subreddit.hot/new/top/rising` is iterated and with which arguments. -/
inductive ListingReq where
  | hot (limit : Int)
  | new (limit : Int)
  | top (time_filter : String) (limit : Int)
  | rising (limit : Int)
deriving DecidableEq

/-- The Reddit client as a bundle of fetch oracles, one per API
interaction the operations perform; `Except.error e` models a raised
client exception with text `e`. -/
structure RedditClient where
  listing : String → ListingReq → Except String (List RawPost)
  submission : String → Except String (RawPost × List CommentNode)
  search : String → String → String → Int → Except String (List RawPost)
  subredditInfo : String → Except String RawSubreddit

/-- The sort-type dispatch of `get_subreddit_posts` (lines 55-64): which
listing is requested for a given `sort_type`, `none` for an invalid
sort type. -/
def sortReqOf (sort_type time_filter : String) (limit : Int) : Option ListingReq :=
  if sort_type == "hot" then some (.hot limit)
  else if sort_type == "new" then some (.new limit)
  else if sort_type == "top" then some (.top time_filter limit)
  else if sort_type == "rising" then some (.rising limit)
  else none

/-- The `post_info` record of `get_subreddit_posts` (lines 69-85);
self-text truncated at 500 characters. -/
def shapeListedPost (p : RawPost) : JVal :=
  .obj [("id", .str p.id), ("title", .str p.title),
        ("author", .str (p.author.getD "[deleted]")),
        ("score", .int p.score),
        ("upvote_ratio", .num p.upvoteRatioVal),
        ("num_comments", .int p.num_comments),
        ("created_utc", .num p.created_utc),
        ("url", .str p.url),
        ("permalink", .str ("https://reddit.com" ++ p.permalink)),
        ("selftext", .str (truncateText 500 p.selftext)),
        ("is_self", .bool p.is_self),
        ("over_18", .bool p.over_18),
        ("spoiler", .bool p.spoiler),
        ("stickied", .bool p.stickied),
        ("flair_text", jstrOpt p.link_flair_text)]

/-- `get_subreddit_posts` (lines 31-97). -/
def get_subreddit_posts (client : RedditClient) (subreddit_name sort_type : String)
    (limit : Int) (time_filter : String) : JVal :=
  match sortReqOf sort_type time_filter limit with
  | none => .obj [("error", .str "Invalid sort_type. Use 'hot', 'new', 'top', or 'rising'")]
  | some req =>
    match client.listing subreddit_name req with
    | .error e => .obj [("error", .str ("Failed to fetch posts: " ++ e))]
    | .ok posts =>
      let post_data := posts.map shapeListedPost
      .obj [("subreddit", .str subreddit_name),
            ("sort_type", .str sort_type),
            ("time_filter", if sort_type == "top" then .str time_filter else .null),
            ("count", .int post_data.length),
            ("posts", .arr post_data)]

/-- The `post_details` record of `get_post_details` (lines 116-135); note
that `selftext` is returned in full, not truncated. -/
def postDetailsBase (p : RawPost) : List (String × JVal) :=
  [("id", .str p.id), ("title", .str p.title),
   ("author", .str (p.author.getD "[deleted]")),
   ("subreddit", .str p.subreddit),
   ("score", .int p.score),
   ("upvote_ratio", .num p.upvoteRatioVal),
   ("num_comments", .int p.num_comments),
   ("created_utc", .num p.created_utc),
   ("url", .str p.url),
   ("permalink", .str ("https://reddit.com" ++ p.permalink)),
   ("selftext", .str p.selftext),
   ("is_self", .bool p.is_self),
   ("over_18", .bool p.over_18),
   ("spoiler", .bool p.spoiler),
   ("stickied", .bool p.stickied),
   ("flair_text", jstrOpt p.link_flair_text),
   ("gilded", .int p.gilded),
   ("distinguished", jstrOpt p.distinguished)]

/-- The `comment_info` record (lines 142-151); body truncated at 300
characters. -/
def shapeComment (c : RawComment) : JVal :=
  .obj [("id", .str c.id),
        ("author", .str (c.author.getD "[deleted]")),
        ("body", .str (truncateText 300 c.body)),
        ("score", .int c.score),
        ("created_utc", .num c.created_utc),
        ("is_submitter", .bool c.is_submitter),
        ("stickied", .bool c.stickied),
        ("gilded", .int c.gilded)]

/-- `submission.comments.replace_more(limit=0)`: remove every "load
more" placeholder (praw removes `MoreComments` objects without fetching
when the limit is 0). -/
def replaceMoreZero (forest : List CommentNode) : List CommentNode :=
  forest.filter fun n => match n with | .comment _ => true | .more => false

/-- The `hasattr(comment, 'body')` test of line 141. -/
def commentBody? : CommentNode → Option RawComment
  | .comment c => some c
  | .more => none

/-- `get_post_details` (lines 100-159).  `comment_limit` models the list
slice `submission.comments[:comment_limit]` (a natural number, as in
every intended call). -/
def get_post_details (client : RedditClient) (post_id : String)
    (include_comments : Bool) (comment_limit : Nat) : JVal :=
  match client.submission post_id with
  | .error e => .obj [("error", .str ("Failed to fetch post details: " ++ e))]
  | .ok (p, forest) =>
    let base := postDetailsBase p
    if include_comments then
      let flattened := replaceMoreZero forest
      let comments := ((flattened.take comment_limit).filterMap commentBody?).map shapeComment
      .obj (base ++ [("comments", .arr comments)])
    else
      .obj base

/-- The `result_info` record of `search_reddit` (lines 187-198);
self-text truncated at 200 characters. -/
def shapeSearchPost (p : RawPost) : JVal :=
  .obj [("id", .str p.id), ("title", .str p.title),
        ("author", .str (p.author.getD "[deleted]")),
        ("subreddit", .str p.subreddit),
        ("score", .int p.score),
        ("num_comments", .int p.num_comments),
        ("created_utc", .num p.created_utc),
        ("url", .str p.url),
        ("permalink", .str ("https://reddit.com" ++ p.permalink)),
        ("selftext", .str (truncateText 200 p.selftext))]

/-- `search_reddit` (lines 161-210). -/
def search_reddit (client : RedditClient) (query sort time_filter : String)
    (limit : Int) : JVal :=
  match client.search query sort time_filter limit with
  | .error e => .obj [("error", .str ("Search failed: " ++ e))]
  | .ok posts =>
    let results := posts.map shapeSearchPost
    .obj [("query", .str query),
          ("sort", .str sort),
          ("time_filter", .str time_filter),
          ("count", .int results.length),
          ("results", .arr results)]

/-- The `subreddit_info` record of `get_subreddit_info` (lines 227-239);
description truncated at 500 characters. -/
def shapeSubredditInfo (subreddit_name : String) (s : RawSubreddit) : JVal :=
  .obj [("name", .str s.display_name),
        ("title", .str s.title),
        ("description", .str (truncateText 500 s.description)),
        ("subscribers", .int s.subscribers),
        ("active_users", .int s.active_user_count),
        ("created_utc", .num s.created_utc),
        ("over18", .bool s.over18),
        ("public_description", .str s.public_description),
        ("url", .str ("https://reddit.com/r/" ++ subreddit_name)),
        ("subreddit_type", .str s.subreddit_type),
        ("lang", .str s.lang)]

/-- `get_subreddit_info` (lines 212-244). -/
def get_subreddit_info (client : RedditClient) (subreddit_name : String) : JVal :=
  match client.subredditInfo subreddit_name with
  | .error e => .obj [("error", .str ("Failed to fetch subreddit info: " ++ e))]
  | .ok s => shapeSubredditInfo subreddit_name s

/-! # Theorems -/

/-! ## Basic list facts -/

theorem takeWhile_eq_nil_of_none {p : Char → Bool} :
    ∀ {l : List Char}, (∀ c ∈ l, p c = false) → l.takeWhile p = []
  | [], _ => rfl
  | c :: cs, h => by
    have hc := h c (by simp)
    simp [List.takeWhile, hc]

theorem takeWhile_eq_self_of_all {p : Char → Bool} :
    ∀ {l : List Char}, (∀ c ∈ l, p c = true) → l.takeWhile p = l
  | [], _ => rfl
  | c :: cs, h => by
    have hc := h c (List.mem_cons_self c cs)
    have ih := takeWhile_eq_self_of_all fun d hd => h d (List.mem_cons_of_mem c hd)
    simp [List.takeWhile, hc, ih]

theorem dropWhile_eq_nil_of_all {p : Char → Bool} :
    ∀ {l : List Char}, (∀ c ∈ l, p c = true) → l.dropWhile p = []
  | [], _ => rfl
  | c :: cs, h => by
    have hc := h c (List.mem_cons_self c cs)
    have ih := dropWhile_eq_nil_of_all fun d hd => h d (List.mem_cons_of_mem c hd)
    simp [List.dropWhile, hc, ih]

/-! ## Character class facts -/

theorem word_of_identStart {c : Char} (h : isIdentStart c = true) : isWordChar c = true := by
  simp [isIdentStart] at h
  rcases h with h | h <;> simp [isWordChar, h]

theorem not_space_of_word {c : Char} (h : isWordChar c = true) : isSpaceChar c = false := by
  cases hs : isSpaceChar c with
  | false => rfl
  | true =>
    exfalso
    have hd : c = ' ' ∨ c = '\t' ∨ c = '\n' ∨ c = '\x0d' ∨ c = '\x0b' ∨ c = '\x0c' := by
      simp [isSpaceChar] at hs
      tauto
    rcases hd with h1 | h1 | h1 | h1 | h1 | h1 <;> subst h1 <;> exact absurd h (by decide)

theorem ne_dot_of_word {c : Char} (h : isWordChar c = true) : c ≠ '.' := by
  intro he
  subst he
  exact absurd h (by decide)

/-! ## Facts about `validIdent` -/

theorem validIdent_head_tail {c : Char} {cs : List Char} (h : validIdent (c :: cs) = true) :
    isIdentStart c = true ∧ ∀ d ∈ cs, isWordChar d = true := by
  simp [validIdent, List.all_eq_true] at h
  exact ⟨h.1, h.2⟩

theorem validIdent_mem_word {t : List Char} (h : validIdent t = true) :
    ∀ d ∈ t, isWordChar d = true := by
  cases t with
  | nil => exact absurd h (by decide)
  | cons c cs =>
    obtain ⟨h1, h2⟩ := validIdent_head_tail h
    intro d hd
    rcases List.mem_cons.mp hd with rfl | hd
    · exact word_of_identStart h1
    · exact h2 d hd

/-! ## Facts about `listStartsWith` / `containsSub` -/

theorem listStartsWith_mem :
    ∀ {n l : List Char}, listStartsWith n l = true → ∀ c ∈ n, c ∈ l
  | [], _, _, c, hc => by simp at hc
  | a :: as, [], h, _, _ => by simp [listStartsWith] at h
  | a :: as, b :: bs, h, c, hc => by
    simp [listStartsWith] at h
    rcases List.mem_cons.mp hc with rfl | hc
    · simp [h.1]
    · exact List.mem_cons.mpr (Or.inr (listStartsWith_mem h.2 c hc))

theorem containsSub_eq_false_of_missing {c : Char} {n : List Char} (hc : c ∈ n) :
    ∀ {h : List Char}, (∀ d ∈ h, d ≠ c) → containsSub n h = false
  | [], _ => by
    cases n with
    | nil => simp at hc
    | cons a as => rfl
  | b :: bs, hmiss => by
    have h1 : listStartsWith n (b :: bs) = false := by
      cases hp : listStartsWith n (b :: bs) with
      | false => rfl
      | true => exact absurd rfl (hmiss c (listStartsWith_mem hp c hc))
    have h2 : containsSub n bs = false :=
      containsSub_eq_false_of_missing hc fun d hd => hmiss d (by simp [hd])
    simp [containsSub, h1, h2]

theorem listStartsWith_self_append :
    ∀ (n b : List Char), listStartsWith n (n ++ b) = true
  | [], _ => rfl
  | a :: as, b => by simp [listStartsWith, listStartsWith_self_append as b]

theorem containsSub_append_mid :
    ∀ (a n b : List Char), n ≠ [] → containsSub n (a ++ (n ++ b)) = true
  | [], n, b, hne => by
    cases n with
    | nil => exact absurd rfl hne
    | cons x xs =>
      have h := listStartsWith_self_append (x :: xs) b
      simp [containsSub]
      exact Or.inl h
  | c :: cs, n, b, hne => by
    simp [containsSub]
    exact Or.inr (containsSub_append_mid cs n b hne)

theorem containsSub_append_self (a n : List Char) (hne : n ≠ []) :
    containsSub n (a ++ n) = true := by
  have := containsSub_append_mid a n [] hne
  simpa using this

/-! ## Facts about keyword matching and the scanner -/

theorem matchKeywordCI_mem :
    ∀ {ks l r : List Char}, matchKeywordCI ks l = some r → ∀ c ∈ r, c ∈ l
  | [], l, r, h, c, hc => by
    simp only [matchKeywordCI, Option.some.injEq] at h
    subst h
    exact hc
  | k :: ks, [], r, h, _, _ => by simp [matchKeywordCI] at h
  | k :: ks, b :: bs, r, h, c, hc => by
    cases hcond : (b.toLower == k.toLower) with
    | true =>
      simp only [matchKeywordCI, hcond, if_true] at h
      exact List.mem_cons_of_mem b (matchKeywordCI_mem h c hc)
    | false => simp [matchKeywordCI, hcond] at h

theorem tryMatch_none_of_no_space (pat : RewritePattern) (prev : Option Char) {l : List Char}
    (h : ∀ c ∈ l, isSpaceChar c = false) : tryMatch pat prev l = none := by
  cases hb : boundaryOk prev with
  | false => simp [tryMatch, hb]
  | true =>
    cases hm : matchKeywordCI pat.keyword l with
    | none => simp [tryMatch, hb, hm]
    | some r1 =>
      have hr1 : ∀ c ∈ r1, isSpaceChar c = false := fun c hc => h c (matchKeywordCI_mem hm c hc)
      simp [tryMatch, hb, hm, takeWhile_eq_nil_of_none hr1]

theorem tryMatch_nil (pat : RewritePattern) (prev : Option Char) :
    tryMatch pat prev [] = none :=
  tryMatch_none_of_no_space pat prev (by simp)

theorem kwWithin_fail :
    ∀ {ks x : List Char}, kwWithin ks x = .fail → ∀ suf, matchKeywordCI ks (x ++ suf) = none
  | [], x, h, _ => by simp [kwWithin] at h
  | k :: ks, [], h, _ => by simp [kwWithin] at h
  | k :: ks, c :: cs, h, suf => by
    cases hcond : (c.toLower == k.toLower) with
    | true =>
      simp only [kwWithin, hcond, if_true] at h
      simpa [matchKeywordCI, hcond] using kwWithin_fail h suf
    | false => simp [matchKeywordCI, hcond]

theorem kwWithin_ok :
    ∀ {ks x r : List Char}, kwWithin ks x = .ok r →
      ∀ suf, matchKeywordCI ks (x ++ suf) = some (r ++ suf)
  | [], x, r, h, suf => by
    simp only [kwWithin, KwRes.ok.injEq] at h
    subst h
    simp [matchKeywordCI]
  | k :: ks, [], r, h, _ => by simp [kwWithin] at h
  | k :: ks, c :: cs, r, h, suf => by
    cases hcond : (c.toLower == k.toLower) with
    | true =>
      simp only [kwWithin, hcond, if_true] at h
      simpa [matchKeywordCI, hcond] using kwWithin_ok h suf
    | false => simp [kwWithin, hcond] at h

theorem tryMatchFailsWithin_sound {pat : RewritePattern} {prev : Option Char} {x : List Char}
    (h : tryMatchFailsWithin pat prev x = true) :
    ∀ suf, tryMatch pat prev (x ++ suf) = none := by
  intro suf
  cases hb : boundaryOk prev with
  | false => simp [tryMatch, hb]
  | true =>
    simp only [tryMatchFailsWithin, hb, if_true] at h
    cases hk : kwWithin pat.keyword x with
    | fail => simp [tryMatch, hb, kwWithin_fail hk suf]
    | unknown => simp [hk] at h
    | ok r =>
      simp only [hk] at h
      cases r with
      | nil => simp at h
      | cons c rs =>
        have hcs : isSpaceChar c = false := by
          cases hx : isSpaceChar c with
          | false => rfl
          | true => simp [hx] at h
        have hm := kwWithin_ok hk suf
        simp [tryMatch, hb, hm, List.takeWhile_cons, hcs]

theorem subScanF_nil (pat : RewritePattern) (fuel : Nat) (prev : Option Char) :
    subScanF pat fuel prev [] = [] := by
  cases fuel <;> rfl

theorem subScanF_cons_none {pat : RewritePattern} {prev : Option Char} {c : Char} {cs : List Char}
    (h : tryMatch pat prev (c :: cs) = none) (fuel : Nat) :
    subScanF pat (fuel + 1) prev (c :: cs) = c :: subScanF pat fuel (some c) cs := by
  simp [subScanF, h]

theorem subScanF_match_any {pat : RewritePattern} {prev : Option Char} {l ident : List Char}
    (h : tryMatch pat prev l = some (ident, [])) {fuel : Nat} (hf : fuel ≠ 0) :
    subScanF pat fuel prev l = pat.replPre ++ ident ++ pat.replSuf := by
  cases l with
  | nil => rw [tryMatch_nil] at h; exact absurd h (by simp)
  | cons c cs =>
    cases fuel with
    | zero => exact absurd rfl hf
    | succ f => simp [subScanF, h, subScanF_nil]

theorem subScanF_append_of_asf {pat : RewritePattern} :
    ∀ (pre : List Char) (prev : Option Char) (fuel : Nat) (suf : List Char),
      allSplitsFail pat prev pre suf = true →
      subScanF pat fuel prev (pre ++ suf)
        = pre ++ subScanF pat (fuel - pre.length) (prevAt prev pre) suf
  | [], prev, fuel, suf, _ => by simp [prevAt]
  | c :: pre, prev, fuel, suf, h => by
    simp only [allSplitsFail, Bool.and_eq_true, Option.isNone_iff_eq_none] at h
    obtain ⟨h1, h2⟩ := h
    cases fuel with
    | zero => simp [subScanF, subScanF_nil, Nat.zero_sub]
    | succ f =>
      rw [List.cons_append, subScanF_cons_none h1 f,
        subScanF_append_of_asf pre (some c) f suf h2]
      simp [prevAt, List.length_cons, Nat.succ_sub_succ]

theorem allSplitsFail_of_within {pat : RewritePattern} :
    ∀ {pre : List Char} {prev : Option Char}, allSplitsFailWithin pat prev pre = true →
      ∀ suf, allSplitsFail pat prev pre suf = true
  | [], _, _, _ => rfl
  | c :: pre, prev, h, suf => by
    simp only [allSplitsFailWithin, Bool.and_eq_true] at h
    have h1 := tryMatchFailsWithin_sound h.1 suf
    simp only [allSplitsFail, Bool.and_eq_true, Option.isNone_iff_eq_none]
    constructor
    · simpa using h1
    · exact allSplitsFail_of_within h.2 suf

theorem allSplitsFail_append {pat : RewritePattern} :
    ∀ (a : List Char) (prev : Option Char) (b suf : List Char),
      allSplitsFail pat prev (a ++ b) suf
        = (allSplitsFail pat prev a (b ++ suf) && allSplitsFail pat (prevAt prev a) b suf)
  | [], prev, b, suf => by simp [allSplitsFail, prevAt]
  | c :: a, prev, b, suf => by
    show ((tryMatch pat prev (c :: (a ++ b ++ suf))).isNone && allSplitsFail pat (some c) (a ++ b) suf)
        = (((tryMatch pat prev (c :: (a ++ (b ++ suf)))).isNone
              && allSplitsFail pat (some c) a (b ++ suf))
            && allSplitsFail pat (prevAt (some c) a) b suf)
    rw [allSplitsFail_append a (some c) b suf, List.append_assoc, Bool.and_assoc]

theorem allSplitsFail_of_no_space {pat : RewritePattern} :
    ∀ {pre : List Char} (prev : Option Char) {suf : List Char},
      (∀ c ∈ pre ++ suf, isSpaceChar c = false) →
      allSplitsFail pat prev pre suf = true
  | [], _, _, _ => rfl
  | c :: pre, prev, suf, h => by
    simp only [allSplitsFail, Bool.and_eq_true, Option.isNone_iff_eq_none]
    constructor
    · exact tryMatch_none_of_no_space pat prev (by simpa using h)
    · exact allSplitsFail_of_no_space (some c) fun d hd => h d (List.mem_cons_of_mem c hd)

theorem reSub_id_of_asf {pat : RewritePattern} {l : List Char}
    (h : allSplitsFail pat none l [] = true) : reSub pat l = l := by
  have h2 := subScanF_append_of_asf l none l.length [] h
  simpa [reSub, subScanF_nil] using h2

theorem tryMatch_match_ident {pat : RewritePattern} {prev : Option Char} {x t : List Char}
    (hb : boundaryOk prev = true)
    (hkw : pat.checkIfExists = false)
    (hk : kwWithin pat.keyword x = .ok [' '])
    (hv : validIdent t = true) :
    tryMatch pat prev (x ++ t) = some (t, []) := by
  cases t with
  | nil => exact absurd hv (by decide)
  | cons c cs =>
    obtain ⟨hid, hcs⟩ := validIdent_head_tail hv
    have hm := kwWithin_ok hk (c :: cs)
    have hcspace : isSpaceChar c = false := not_space_of_word (word_of_identStart hid)
    have htw2 : cs.takeWhile isWordChar = cs := takeWhile_eq_self_of_all hcs
    have hdw2 : cs.dropWhile isWordChar = [] := dropWhile_eq_nil_of_all hcs
    simp [tryMatch, hb, hm, List.takeWhile_cons, List.dropWhile_cons, hcspace, hkw, hid,
      htw2, hdw2, show isSpaceChar ' ' = true from rfl]

theorem cat3 {a b c : List Char} (h : a ++ b = c) (s : List Char) :
    a ++ (b ++ s) = c ++ s := by
  rw [← List.append_assoc, h]

theorem reSub_from_step {t : List Char} (hv : validIdent t = true) :
    reSub (fromPat "project.dataset".data) ("SELECT * FROM ".data ++ t)
      = "SELECT * FROM `project.dataset.".data ++ (t ++ "`".data) := by
  have hsplit : "SELECT * FROM ".data = "SELECT * ".data ++ "FROM ".data := by decide
  have hasf : allSplitsFail (fromPat "project.dataset".data) none
      "SELECT * ".data ("FROM ".data ++ t) = true :=
    allSplitsFail_of_within (by decide) _
  have hm : tryMatch (fromPat "project.dataset".data) (some ' ')
      ("FROM ".data ++ t) = some (t, []) :=
    tryMatch_match_ident rfl rfl (by decide) hv
  have hf : ("SELECT * ".data ++ ("FROM ".data ++ t)).length
      - ("SELECT * ".data).length ≠ 0 := by
    simp [List.length_append]
  rw [reSub, hsplit, List.append_assoc]
  rw [show ("SELECT * ".data ++ ("FROM ".data ++ t)).length
      = ("SELECT * ".data ++ ("FROM ".data ++ t)).length from rfl]
  rw [subScanF_append_of_asf "SELECT * ".data none _ _ hasf]
  rw [show prevAt none "SELECT * ".data = some ' ' from rfl]
  rw [subScanF_match_any hm hf]
  simp only [fromPat, List.append_assoc]
  rw [cat3 (show "project.dataset".data ++ ".".data = "project.dataset.".data from by decide),
      cat3 (show "FROM `".data ++ "project.dataset.".data
        = "FROM `project.dataset.".data from by decide),
      cat3 (show "SELECT * ".data ++ "FROM `project.dataset.".data
        = "SELECT * FROM `project.dataset.".data from by decide)]

theorem reSub_id_S1 {t : List Char} (hv : validIdent t = true) (pat : RewritePattern)
    (hw : allSplitsFailWithin pat none "SELECT * FROM `project.dataset.".data = true) :
    reSub pat ("SELECT * FROM `project.dataset.".data ++ (t ++ "`".data))
      = "SELECT * FROM `project.dataset.".data ++ (t ++ "`".data) := by
  apply reSub_id_of_asf
  rw [allSplitsFail_append "SELECT * FROM `project.dataset.".data none (t ++ "`".data) [],
    Bool.and_eq_true]
  constructor
  · exact allSplitsFail_of_within hw _
  · apply allSplitsFail_of_no_space
    intro c hc
    have hbs : ∀ d ∈ "`".data, isSpaceChar d = false := by decide
    simp only [List.append_nil, List.mem_append] at hc
    rcases hc with hc | hc
    · exact not_space_of_word (validIdent_mem_word hv c hc)
    · exact hbs c hc

theorem autoQualifyL_general {t : List Char} (hv : validIdent t = true) :
    autoQualifyL "project.dataset".data ("SELECT * FROM ".data ++ t)
      = "SELECT * FROM `project.dataset.".data ++ (t ++ "`".data) := by
  have hword := validIdent_mem_word hv
  have hA : ∀ d ∈ "SELECT * FROM ".data, d ≠ '.' := by decide
  have hguard : containsSub "project.dataset".data ("SELECT * FROM ".data ++ t) = false := by
    apply containsSub_eq_false_of_missing (show ('.') ∈ "project.dataset".data from by decide)
    intro d hd
    rcases List.mem_append.mp hd with hd | hd
    · exact hA d hd
    · exact ne_dot_of_word (hword d hd)
  unfold autoQualifyL
  rw [hguard]
  simp only [Bool.false_eq_true, if_false, mkPatterns, List.foldl]
  rw [reSub_from_step hv,
    reSub_id_S1 hv (intoPat "project.dataset".data) (by decide),
    reSub_id_S1 hv (updatePat "project.dataset".data) (by decide),
    reSub_id_S1 hv (tablePat "project.dataset".data) (by decide)]

theorem autoQualify_general {t : List Char} (hv : validIdent t = true) :
    autoQualify "project" "dataset" (String.mk ("SELECT * FROM ".data ++ t))
      = String.mk ("SELECT * FROM `project.dataset.".data ++ (t ++ "`".data)) := by
  show String.mk (autoQualifyL ("project".data ++ ".".data ++ "dataset".data)
      ("SELECT * FROM ".data ++ t)) = _
  rw [show "project".data ++ ".".data ++ "dataset".data = "project.dataset".data from by decide]
  rw [autoQualifyL_general hv]

/-! ## String-level helper lemmas -/

theorem strAppend_assoc (a b c : String) : a ++ b ++ c = a ++ (b ++ c) := by
  apply String.ext
  simp [String.data_append, List.append_assoc]

theorem strAppend_empty (a : String) : a ++ "" = a := by
  apply String.ext
  simp [String.data_append]

/-! ## Claim C1: the query-rewrite behavior -/

/-- C1: a statement without the fully-qualified prefix has unqualified
table identifiers following `FROM`/`INTO`/`UPDATE`/`TABLE` rewritten
(case-insensitively) into backticked `project.dataset.table` form, except
after `TABLE IF EXISTS`; the first conjunct states the `FROM` case for an
arbitrary identifier, the rest are the spec's concrete instances for the
other keywords, case-insensitivity, and the `IF EXISTS` exception. -/
theorem c1_table_rewrite (t : List Char) (hv : validIdent t = true) :
    autoQualify "project" "dataset" (String.mk ("SELECT * FROM ".data ++ t))
      = String.mk ("SELECT * FROM `project.dataset.".data ++ (t ++ "`".data))
  ∧ autoQualify "project" "dataset" "DROP TABLE IF EXISTS orders" = "DROP TABLE IF EXISTS orders"
  ∧ autoQualify "project" "dataset" "select * from orders" = "select * FROM `project.dataset.orders`"
  ∧ autoQualify "project" "dataset" "INSERT INTO orders VALUES (1)"
      = "INSERT INTO `project.dataset.orders` VALUES (1)"
  ∧ autoQualify "project" "dataset" "UPDATE orders SET a = 1"
      = "UPDATE `project.dataset.orders` SET a = 1"
  ∧ autoQualify "project" "dataset" "CREATE TABLE orders (a INT64)"
      = "CREATE TABLE `project.dataset.orders` (a INT64)" :=
  ⟨autoQualify_general hv, by decide, by decide, by decide, by decide, by decide⟩

/-- Witness for C1 at the identifier `orders`. -/
theorem c1_table_rewrite_witness :
    validIdent "orders".data = true ∧
    autoQualify "project" "dataset" "SELECT * FROM orders"
      = "SELECT * FROM `project.dataset.orders`" := by
  constructor
  · decide
  · have h := (c1_table_rewrite "orders".data (by decide)).1
    have e1 : String.mk ("SELECT * FROM ".data ++ "orders".data) = "SELECT * FROM orders" := by
      decide
    have e2 : String.mk ("SELECT * FROM `project.dataset.".data ++ ("orders".data ++ "`".data))
        = "SELECT * FROM `project.dataset.orders`" := by decide
    rw [e1, e2] at h
    exact h

/-! ## Claim C2: statements already qualified are left unchanged -/

/-- C2: if the statement already contains the substring
`project.dataset`, the rewrite step is the identity. -/
theorem c2_qualified_identity (q : String)
    (h : strContains q "project.dataset" = true) :
    autoQualify "project" "dataset" q = q := by
  show String.mk (autoQualifyL ("project".data ++ ".".data ++ "dataset".data) q.data) = q
  rw [show "project".data ++ ".".data ++ "dataset".data = "project.dataset".data from by decide]
  unfold autoQualifyL
  unfold strContains at h
  rw [h]
  rfl

/-- Witness for C2. -/
theorem c2_qualified_identity_witness :
    strContains "SELECT * FROM `project.dataset.orders`" "project.dataset" = true ∧
    autoQualify "project" "dataset" "SELECT * FROM `project.dataset.orders`"
      = "SELECT * FROM `project.dataset.orders`" :=
  ⟨by decide, c2_qualified_identity _ (by decide)⟩

/-! ## Digit-string facts (for reasoning about formatted numbers) -/

theorem digitChar_mem_digits (n : Nat) : digitChar n ∈ "0123456789".data := by
  unfold digitChar
  split <;> decide

theorem natDigitsAux_digits :
    ∀ (fuel n : Nat), ∀ c ∈ natDigitsAux fuel n, c ∈ "0123456789".data
  | 0, n => by simp [natDigitsAux]
  | fuel + 1, n => by
    intro c hc
    simp only [natDigitsAux] at hc
    split at hc
    · simp only [List.mem_singleton] at hc
      subst hc
      exact digitChar_mem_digits n
    · rcases List.mem_append.mp hc with hc | hc
      · exact natDigitsAux_digits fuel (n / 10) c hc
      · simp only [List.mem_singleton] at hc
        subst hc
        exact digitChar_mem_digits (n % 10)

theorem natStr_ne_h {n : Nat} : ∀ c ∈ (natStr n).data, c ≠ 'h' := by
  intro c hc he
  have hmem := natDigitsAux_digits (n + 1) n c hc
  subst he
  exact absurd hmem (by decide)

/-! ## Response shape of `query_bigquery` (claim C3) -/

theorem foldl_schemaLines :
    ∀ (l : List (String × String)) (init : String),
      l.foldl (fun acc f => acc ++ "  - " ++ f.1 ++ ": " ++ f.2 ++ "\n") init
        = init ++ schemaLines l
  | [], init => by simp [schemaLines, strAppend_empty]
  | f :: fs, init => by
    simp only [List.foldl, schemaLines]
    rw [foldl_schemaLines fs]
    simp [strAppend_assoc]

/-- The success acknowledgment of a non-read statement never mentions a
schema: the string `Schema:` cannot occur in it (its letter `h` occurs
nowhere in the acknowledgment, whose only variable part is a decimal
number). -/
theorem no_schema_in_ack (oa : Option Nat) :
    strContains ("Query executed successfully." ++ affectedNote oa) "Schema:" = false := by
  unfold strContains
  apply containsSub_eq_false_of_missing (show 'h' ∈ "Schema:".data from by decide)
  intro d hd
  have hconc : ∀ d ∈ "Query executed successfully.".data, d ≠ 'h' := by decide
  rw [String.data_append] at hd
  rcases List.mem_append.mp hd with hd | hd
  · exact hconc d hd
  · cases oa with
    | none => exact absurd hd (List.not_mem_nil d)
    | some n =>
      cases hz : (n == 0) with
      | true =>
        rw [show affectedNote (some n) = "" from by simp [affectedNote, hz]] at hd
        exact absurd hd (List.not_mem_nil d)
      | false =>
        rw [show affectedNote (some n) = " Affected " ++ natStr n ++ " rows." from by
          simp [affectedNote, hz]] at hd
        rw [String.data_append, String.data_append] at hd
        have h1 : ∀ d ∈ " Affected ".data, d ≠ 'h' := by decide
        have h2 : ∀ d ∈ " rows.".data, d ≠ 'h' := by decide
        rcases List.mem_append.mp hd with hd | hd
        · rcases List.mem_append.mp hd with hd | hd
          · exact h1 d hd
          · exact natStr_ne_h d hd
        · exact h2 d hd

/-! ## Claim C3: response classification of `query_bigquery` -/

/-- C3 (amended): a successfully executed statement is classified by the
`SELECT`/`WITH` prefix test on the uppercased, stripped statement; read
statements produce a response carrying the row count, the
field-name/field-type schema listing and the serialized result set, while
any other statement produces the bare success acknowledgment (which never
contains a schema listing) plus the affected-row count exactly when
`num_dml_affected_rows` is available and nonzero. -/
theorem c3_response_classification (env : BQEnv) (exec : String → Except String ExecOutcome)
    (s : BQState) (q : String) (o : ExecOutcome) :
    (isReadQuery q = true →
        formatQueryResponse q o
          = "Query executed successfully. Found " ++ natStr o.totalRows ++ " rows.\n\n"
            ++ "Schema:\n" ++ schemaLines o.schema ++ "\nResults:\n" ++ dumpsRows o.rows)
  ∧ (isReadQuery q = false →
        formatQueryResponse q o
          = "Query executed successfully." ++ affectedNote o.numDmlAffectedRows
        ∧ strContains (formatQueryResponse q o) "Schema:" = false)
  ∧ (∀ c s1, get_bigquery_client env s = .ok (c, s1) →
      exec (autoQualify PROJECT_ID DATASET_ID q) = .ok o →
      query_bigquery env exec s q
        = .ok (formatQueryResponse (autoQualify PROJECT_ID DATASET_ID q) o, s1)) := by
  refine ⟨?_, ?_, ?_⟩
  · intro hread
    unfold formatQueryResponse
    rw [if_pos hread]
    dsimp only
    rw [foldl_schemaLines]
  · intro hread
    have heq : formatQueryResponse q o
        = "Query executed successfully." ++ affectedNote o.numDmlAffectedRows := by
      unfold formatQueryResponse
      rw [if_neg (by simp [hread])]
      cases ho : o.numDmlAffectedRows with
      | none => exact (strAppend_empty _).symm
      | some n =>
        dsimp only
        cases hz : (n == 0) with
        | true =>
          rw [show affectedNote (some n) = "" from by simp [affectedNote, hz]]
          rw [if_pos rfl, strAppend_empty]
        | false =>
          rw [show affectedNote (some n) = " Affected " ++ natStr n ++ " rows." from by
            simp [affectedNote, hz]]
          rw [if_neg (by simp)]
          apply String.ext
          simp [String.data_append, List.append_assoc]
    refine ⟨heq, ?_⟩
    rw [heq]
    exact no_schema_in_ack o.numDmlAffectedRows
  · intro c s1 hget hexec
    unfold query_bigquery
    rw [hget]
    dsimp only
    rw [hexec]

/-- C3 counterexample: a DML execution whose job reports zero affected
rows (so the count is available) yields the bare acknowledgment with no
affected-row count in it, refuting "plus the count of affected rows when
available" as stated. -/
theorem c3_counterexample :
    query_bigquery ⟨true, false, false⟩ (fun _ => .ok ⟨0, [], [], some 0⟩) ⟨some 7, 1⟩
        "DELETE FROM orders WHERE id = 1"
      = .ok ("Query executed successfully.", ⟨some 7, 1⟩)
    ∧ (⟨0, [], [], some 0⟩ : ExecOutcome).numDmlAffectedRows = some 0
    ∧ strContains "Query executed successfully." "Affected" = false := by
  refine ⟨rfl, rfl, by decide⟩

/-- Witness for C3 at a concrete read statement and a concrete mutating
statement. -/
theorem c3_response_classification_witness :
    formatQueryResponse "SELECT * FROM `project.dataset.orders`" ⟨2, [("id", "INTEGER")], [], none⟩
      = "Query executed successfully. Found " ++ natStr 2 ++ " rows.\n\n"
        ++ "Schema:\n" ++ schemaLines [("id", "INTEGER")] ++ "\nResults:\n" ++ dumpsRows []
    ∧ formatQueryResponse "DELETE FROM `project.dataset.orders`" ⟨0, [], [], some 3⟩
        = "Query executed successfully." ++ affectedNote (some 3) := by
  constructor
  · exact (c3_response_classification ⟨true, false, false⟩ (fun _ => .ok ⟨2, [("id", "INTEGER")], [], none⟩)
      ⟨some 0, 1⟩ "SELECT * FROM `project.dataset.orders`" ⟨2, [("id", "INTEGER")], [], none⟩).1
      (by decide)
  · exact ((c3_response_classification ⟨true, false, false⟩ (fun _ => .ok ⟨0, [], [], some 3⟩)
      ⟨some 0, 1⟩ "DELETE FROM `project.dataset.orders`" ⟨0, [], [], some 3⟩).2.1
      (by decide)).1

/-! ## Claim C6: client memoization -/

/-- C6: the BigQuery client is memoized: a first successful acquisition
from an empty cache runs exactly one authentication (the counter rises by
one), writes the cache once, and a second call returns the same instance
with the state unchanged; any call with a populated cache returns the
cached instance and leaves the state untouched. -/
theorem c6_client_memoized (env : BQEnv) (s : BQState) :
    (∀ c s1, s.bqClient = none → get_bigquery_client env s = .ok (c, s1) →
        s1.bqClient = some c ∧ s1.authCalls = s.authCalls + 1
          ∧ get_bigquery_client env s1 = .ok (c, s1))
  ∧ (∀ c, s.bqClient = some c → get_bigquery_client env s = .ok (c, s)) := by
  constructor
  · intro c s1 hnone hok
    simp only [get_bigquery_client, hnone] at hok
    by_cases h1 : env.serviceAccountFileExists = true
    · rw [if_pos h1] at hok
      simp only [Except.ok.injEq, Prod.mk.injEq] at hok
      obtain ⟨hc, hs⟩ := hok
      subst hc
      subst hs
      exact ⟨rfl, rfl, rfl⟩
    · rw [if_neg h1] at hok
      by_cases h2 : env.envCredentialsSet = true
      · rw [if_pos h2] at hok
        simp only [Except.ok.injEq, Prod.mk.injEq] at hok
        obtain ⟨hc, hs⟩ := hok
        subst hc
        subst hs
        exact ⟨rfl, rfl, rfl⟩
      · rw [if_neg h2] at hok
        by_cases h3 : env.adcAvailable = true
        · rw [if_pos h3] at hok
          simp only [Except.ok.injEq, Prod.mk.injEq] at hok
          obtain ⟨hc, hs⟩ := hok
          subst hc
          subst hs
          exact ⟨rfl, rfl, rfl⟩
        · rw [if_neg h3] at hok
          exact absurd hok (by simp)
  · intro c hc
    simp only [get_bigquery_client, hc]

/-- Witness for C6: in an environment with a service-account file, the
first acquisition constructs and caches client `0` with one
authentication call, and the second call returns the same instance. -/
theorem c6_client_memoized_witness :
    (⟨some 0, 1⟩ : BQState).bqClient = some 0
    ∧ (⟨some 0, 1⟩ : BQState).authCalls = (⟨none, 0⟩ : BQState).authCalls + 1
    ∧ get_bigquery_client ⟨true, false, false⟩ ⟨some 0, 1⟩ = .ok (0, ⟨some 0, 1⟩) := by
  exact (c6_client_memoized ⟨true, false, false⟩ ⟨none, 0⟩).1 0 ⟨some 0, 1⟩ rfl rfl

/-! ## Claim C7: fault isolation of `query_bigquery` -/

theorem get_client_error_char {env : BQEnv} {s : BQState} {e : String}
    (h : get_bigquery_client env s = .error e) :
    s.bqClient = none ∧ env.serviceAccountFileExists = false
      ∧ env.envCredentialsSet = false ∧ env.adcAvailable = false ∧ e = authErrorText := by
  cases hc : s.bqClient with
  | some c => simp [get_bigquery_client, hc] at h
  | none =>
    simp only [get_bigquery_client, hc] at h
    by_cases h1 : env.serviceAccountFileExists = true
    · rw [if_pos h1] at h
      exact absurd h (by simp)
    · rw [if_neg h1] at h
      by_cases h2 : env.envCredentialsSet = true
      · rw [if_pos h2] at h
        exact absurd h (by simp)
      · rw [if_neg h2] at h
        by_cases h3 : env.adcAvailable = true
        · rw [if_pos h3] at h
          exact absurd h (by simp)
        · rw [if_neg h3] at h
          simp only [Except.error.injEq] at h
          exact ⟨rfl, Bool.not_eq_true _ ▸ (by simpa using h1),
            Bool.not_eq_true _ ▸ (by simpa using h2),
            Bool.not_eq_true _ ▸ (by simpa using h3), h.symm⟩

theorem get_client_error_of_all_false {env : BQEnv} {s : BQState}
    (hc : s.bqClient = none) (h1 : env.serviceAccountFileExists = false)
    (h2 : env.envCredentialsSet = false) (h3 : env.adcAvailable = false) :
    get_bigquery_client env s = .error authErrorText := by
  simp only [get_bigquery_client, hc, h1, h2, h3]
  rfl

/-- C7: every fault raised during query execution is caught and returned
as a `Query failed: ` string; the only raised fault of the operation is
client-acquisition failure, which occurs exactly when the client cache is
empty and all three credential strategies are unavailable. -/
theorem c7_fault_isolation (env : BQEnv) (exec : String → Except String ExecOutcome)
    (s : BQState) (q : String) :
    (∀ c s1 e, get_bigquery_client env s = .ok (c, s1) →
        exec (autoQualify PROJECT_ID DATASET_ID q) = .error e →
        query_bigquery env exec s q = .ok ("Query failed: " ++ e, s1))
  ∧ ((∃ e, query_bigquery env exec s q = .error e)
        ↔ (s.bqClient = none ∧ env.serviceAccountFileExists = false
            ∧ env.envCredentialsSet = false ∧ env.adcAvailable = false))
  ∧ (s.bqClient = none → env.serviceAccountFileExists = false
        → env.envCredentialsSet = false → env.adcAvailable = false →
        query_bigquery env exec s q = .error authErrorText) := by
  refine ⟨?_, ⟨?_, ?_⟩, ?_⟩
  · intro c s1 e hget hexec
    unfold query_bigquery
    rw [hget]
    dsimp only
    rw [hexec]
  · rintro ⟨e, he⟩
    unfold query_bigquery at he
    cases hg : get_bigquery_client env s with
    | ok p =>
      obtain ⟨c1, s1⟩ := p
      rw [hg] at he
      dsimp only at he
      cases hx : exec (autoQualify PROJECT_ID DATASET_ID q) with
      | ok o => rw [hx] at he; exact absurd he (by simp)
      | error e2 => rw [hx] at he; exact absurd he (by simp)
    | error e2 =>
      obtain ⟨hc, h1, h2, h3, _⟩ := get_client_error_char hg
      exact ⟨hc, h1, h2, h3⟩
  · rintro ⟨hc, h1, h2, h3⟩
    refine ⟨authErrorText, ?_⟩
    unfold query_bigquery
    rw [get_client_error_of_all_false hc h1 h2 h3]
  · intro hc h1 h2 h3
    unfold query_bigquery
    rw [get_client_error_of_all_false hc h1 h2 h3]

/-- Witness for C7: with a cached client and a failing execution, the
fault text comes back as data; with no cache and no credentials, the
operation raises. -/
theorem c7_fault_isolation_witness :
    query_bigquery ⟨true, false, false⟩ (fun _ => .error "boom") ⟨some 4, 1⟩ "SELECT 1"
      = .ok ("Query failed: " ++ "boom", ⟨some 4, 1⟩)
    ∧ query_bigquery ⟨false, false, false⟩ (fun _ => .error "boom") ⟨none, 0⟩ "SELECT 1"
      = .error authErrorText := by
  constructor
  · exact (c7_fault_isolation ⟨true, false, false⟩ (fun _ => .error "boom") ⟨some 4, 1⟩
      "SELECT 1").1 4 ⟨some 4, 1⟩ "boom" rfl rfl
  · exact (c7_fault_isolation ⟨false, false, false⟩ (fun _ => .error "boom") ⟨none, 0⟩
      "SELECT 1").2.2 rfl rfl rfl rfl

/-! ## Claim C5: invalid sort type -/

/-- C5: a sort type outside hot/new/top/rising yields the structured JSON
error object, and the result does not depend on the client in any way (in
particular no fetch is issued against it): any two clients give the same
result. -/
theorem c5_invalid_sort (client client2 : RedditClient) (subreddit_name sort_type : String)
    (limit : Int) (time_filter : String)
    (h1 : sort_type ≠ "hot") (h2 : sort_type ≠ "new")
    (h3 : sort_type ≠ "top") (h4 : sort_type ≠ "rising") :
    get_subreddit_posts client subreddit_name sort_type limit time_filter
      = .obj [("error", .str "Invalid sort_type. Use 'hot', 'new', 'top', or 'rising'")]
    ∧ get_subreddit_posts client subreddit_name sort_type limit time_filter
      = get_subreddit_posts client2 subreddit_name sort_type limit time_filter := by
  have e1 : (sort_type == "hot") = false := beq_eq_false_iff_ne.mpr h1
  have e2 : (sort_type == "new") = false := beq_eq_false_iff_ne.mpr h2
  have e3 : (sort_type == "top") = false := beq_eq_false_iff_ne.mpr h3
  have e4 : (sort_type == "rising") = false := beq_eq_false_iff_ne.mpr h4
  have hreq : sortReqOf sort_type time_filter limit = none := by
    simp [sortReqOf, e1, e2, e3, e4]
  constructor
  · unfold get_subreddit_posts
    rw [hreq]
  · unfold get_subreddit_posts
    rw [hreq]

/-- Witness for C5 at the invalid sort type `best`. -/
theorem c5_invalid_sort_witness :
    get_subreddit_posts
        ⟨fun _ _ => .error "x", fun _ => .error "x", fun _ _ _ _ => .error "x",
         fun _ => .error "x"⟩ "python" "best" 10 "day"
      = .obj [("error", .str "Invalid sort_type. Use 'hot', 'new', 'top', or 'rising'")] :=
  (c5_invalid_sort _ ⟨fun _ _ => .error "y", fun _ => .error "y", fun _ _ _ _ => .error "y",
    fun _ => .error "y"⟩ "python" "best" 10 "day"
    (by decide) (by decide) (by decide) (by decide)).1

/-! ## Claim C8: faults become structured error objects -/

theorem containsSub_nil_needle : ∀ (h : List Char), containsSub [] h = true
  | [] => rfl
  | b :: bs => by simp [containsSub, listStartsWith]

theorem containsSub_suffix (a n : List Char) : containsSub n (a ++ n) = true := by
  cases hn : n with
  | nil => rw [List.append_nil]; exact containsSub_nil_needle a
  | cons x xs => exact containsSub_append_self a (x :: xs) (by simp)

/-- C8: for each of the four Reddit operations, a fault raised by the
underlying client during the operation is caught and converted into a
JSON object whose `error` field is a string carrying the fault's text
(the fault text is a substring of the field). -/
theorem c8_reddit_faults (client : RedditClient) (e name sort_type time_filter q pid : String)
    (limit : Int) (comment_limit : Nat) (inc : Bool) (req : ListingReq) :
    (sortReqOf sort_type time_filter limit = some req →
      client.listing name req = .error e →
      get_subreddit_posts client name sort_type limit time_filter
        = .obj [("error", .str ("Failed to fetch posts: " ++ e))])
  ∧ (client.submission pid = .error e →
      get_post_details client pid inc comment_limit
        = .obj [("error", .str ("Failed to fetch post details: " ++ e))])
  ∧ (client.search q sort_type time_filter limit = .error e →
      search_reddit client q sort_type time_filter limit
        = .obj [("error", .str ("Search failed: " ++ e))])
  ∧ (client.subredditInfo name = .error e →
      get_subreddit_info client name
        = .obj [("error", .str ("Failed to fetch subreddit info: " ++ e))])
  ∧ (∀ pre : String, strContains (pre ++ e) e = true) := by
  refine ⟨?_, ?_, ?_, ?_, ?_⟩
  · intro hreq herr
    unfold get_subreddit_posts
    rw [hreq]
    dsimp only
    rw [herr]
  · intro herr
    unfold get_post_details
    rw [herr]
  · intro herr
    unfold search_reddit
    rw [herr]
  · intro herr
    unfold get_subreddit_info
    rw [herr]
  · intro pre
    unfold strContains
    rw [String.data_append]
    exact containsSub_suffix pre.data e.data

/-- Witness for C8: a failing fetch in each operation yields the error
object. -/
theorem c8_reddit_faults_witness :
    get_subreddit_posts
        ⟨fun _ _ => .error "404", fun _ => .error "404", fun _ _ _ _ => .error "404",
         fun _ => .error "404"⟩ "python" "hot" 10 "day"
      = .obj [("error", .str ("Failed to fetch posts: " ++ "404"))]
    ∧ get_post_details
        ⟨fun _ _ => .error "404", fun _ => .error "404", fun _ _ _ _ => .error "404",
         fun _ => .error "404"⟩ "p1" true 10
      = .obj [("error", .str ("Failed to fetch post details: " ++ "404"))]
    ∧ search_reddit
        ⟨fun _ _ => .error "404", fun _ => .error "404", fun _ _ _ _ => .error "404",
         fun _ => .error "404"⟩ "cats" "hot" "day" 10
      = .obj [("error", .str ("Search failed: " ++ "404"))]
    ∧ get_subreddit_info
        ⟨fun _ _ => .error "404", fun _ => .error "404", fun _ _ _ _ => .error "404",
         fun _ => .error "404"⟩ "python"
      = .obj [("error", .str ("Failed to fetch subreddit info: " ++ "404"))] := by
  have h := c8_reddit_faults
    ⟨fun _ _ => .error "404", fun _ => .error "404", fun _ _ _ _ => .error "404",
     fun _ => .error "404"⟩ "404" "python" "hot" "day" "cats" "p1" 10 10 true (.hot 10)
  exact ⟨h.1 rfl rfl, h.2.1 rfl, h.2.2.1 rfl, h.2.2.2.1 rfl⟩

/-! ## Claim C9: optional comments of `get_post_details` -/

/-- C9: with `include_comments = true` the result carries a `comments`
array built from the comment forest after flattening the load-more
placeholders away, holding at most `comment_limit` comment records; with
`include_comments = false` the result has no `comments` key at all. -/
theorem c9_comments (client : RedditClient) (pid : String) (comment_limit : Nat)
    (p : RawPost) (forest : List CommentNode)
    (hok : client.submission pid = .ok (p, forest)) :
    (∃ cs : List JVal,
        jfield (get_post_details client pid true comment_limit) "comments" = some (.arr cs)
        ∧ cs = (((replaceMoreZero forest).take comment_limit).filterMap commentBody?).map
            shapeComment
        ∧ cs.length ≤ comment_limit)
    ∧ jfield (get_post_details client pid false comment_limit) "comments" = none := by
  constructor
  · refine ⟨_, ?_, rfl, ?_⟩
    · unfold get_post_details
      rw [hok]
      dsimp only
      rw [if_pos rfl]
      rfl
    · have h1 := List.length_filterMap_le commentBody?
        ((replaceMoreZero forest).take comment_limit)
      have h2 := List.length_take_le comment_limit (replaceMoreZero forest)
      simp only [List.length_map]
      omega
  · unfold get_post_details
    rw [hok]
    dsimp only
    rw [if_neg (by simp)]
    rfl

/-- Witness for C9 at a concrete two-node forest (one comment, one
load-more placeholder). -/
theorem c9_comments_witness :
    jfield (get_post_details
        ⟨fun _ _ => .error "x",
         fun _ => .ok (⟨"p", "t", none, "s", 1, 0, 2, 0, "u", "l", "txt",
            true, false, false, false, none, 0, none⟩,
          [.comment ⟨"c", some "a", "body", 1, 0, false, false, 0⟩, .more]),
         fun _ _ _ _ => .error "x", fun _ => .error "x"⟩ "p1" false 10) "comments"
      = none :=
  (c9_comments _ "p1" 10 _ _ rfl).2

/-! ## Claim C10: the count field matches the array length -/

/-- C10: in every successful output of `get_subreddit_posts` and
`search_reddit` the `count` field equals the number of records in the
`posts` (respectively `results`) array. -/
theorem c10_count_consistency (client : RedditClient) (name sort_type time_filter q : String)
    (limit : Int) (req : ListingReq) (ps : List RawPost) :
    (sortReqOf sort_type time_filter limit = some req →
      client.listing name req = .ok ps →
      ∃ l : List JVal,
        jfield (get_subreddit_posts client name sort_type limit time_filter) "posts"
          = some (.arr l)
        ∧ jfield (get_subreddit_posts client name sort_type limit time_filter) "count"
          = some (.int l.length))
  ∧ (client.search q sort_type time_filter limit = .ok ps →
      ∃ l : List JVal,
        jfield (search_reddit client q sort_type time_filter limit) "results" = some (.arr l)
        ∧ jfield (search_reddit client q sort_type time_filter limit) "count"
          = some (.int l.length)) := by
  constructor
  · intro hreq hok
    refine ⟨ps.map shapeListedPost, ?_, ?_⟩
    · unfold get_subreddit_posts
      rw [hreq]
      dsimp only
      rw [hok]
      rfl
    · unfold get_subreddit_posts
      rw [hreq]
      dsimp only
      rw [hok]
      rfl
  · intro hok
    refine ⟨ps.map shapeSearchPost, ?_, ?_⟩
    · unfold search_reddit
      rw [hok]
      rfl
    · unfold search_reddit
      rw [hok]
      rfl

/-- Witness for C10 on a one-post listing and a one-post search. -/
theorem c10_count_consistency_witness :
    (∃ l : List JVal,
        jfield (get_subreddit_posts
          ⟨fun _ _ => .ok [⟨"p", "t", none, "s", 1, 0, 2, 0, "u", "l", "txt",
              true, false, false, false, none, 0, none⟩],
           fun _ => .error "x", fun _ _ _ _ => .error "x", fun _ => .error "x"⟩
          "python" "hot" 10 "day") "posts" = some (.arr l)
        ∧ jfield (get_subreddit_posts
          ⟨fun _ _ => .ok [⟨"p", "t", none, "s", 1, 0, 2, 0, "u", "l", "txt",
              true, false, false, false, none, 0, none⟩],
           fun _ => .error "x", fun _ _ _ _ => .error "x", fun _ => .error "x"⟩
          "python" "hot" 10 "day") "count" = some (.int l.length)) :=
  (c10_count_consistency
    ⟨fun _ _ => .ok [⟨"p", "t", none, "s", 1, 0, 2, 0, "u", "l", "txt",
        true, false, false, false, none, 0, none⟩],
     fun _ => .error "x", fun _ _ _ _ => .error "x", fun _ => .error "x"⟩
    "python" "hot" "day" "q" 10 (.hot 10)
    [⟨"p", "t", none, "s", 1, 0, 2, 0, "u", "l", "txt",
      true, false, false, false, none, 0, none⟩]).1 rfl rfl

/-! ## Claim C4: truncation of free-text fields -/

/-- C4 (amended): the truncation idiom bounds the output at limit + 3
characters, appends the ellipsis exactly when the source exceeds the
limit (and otherwise returns the source unchanged, so a source already
ending in `...` keeps that suffix); it is applied to the listing
self-text at 500, the comment body at 300, the search self-text at 200
and the subreddit description at 500, while the self-text of
`get_post_details` is returned in full, untruncated. -/
theorem c4_truncation (limit : Nat) (s : String) (p : RawPost) (c : RawComment)
    (sr : RawSubreddit) (sub_name : String) :
    (truncateText limit s).length ≤ limit + 3
  ∧ (s.length > limit →
      strEndsWith (truncateText limit s) "..." = true
        ∧ (truncateText limit s).length = limit + 3)
  ∧ (s.length ≤ limit → truncateText limit s = s)
  ∧ jfield (shapeListedPost p) "selftext" = some (.str (truncateText 500 p.selftext))
  ∧ jfield (shapeComment c) "body" = some (.str (truncateText 300 c.body))
  ∧ jfield (shapeSearchPost p) "selftext" = some (.str (truncateText 200 p.selftext))
  ∧ jfield (shapeSubredditInfo sub_name sr) "description"
      = some (.str (truncateText 500 sr.description))
  ∧ jfield (.obj (postDetailsBase p)) "selftext" = some (.str p.selftext) := by
  have hlen : s.length > limit → (truncateText limit s).length = limit + 3 := by
    intro h
    unfold truncateText
    rw [if_pos h]
    rw [String.length_append, String.length_mk, List.length_take]
    have hsl : s.length = s.data.length := rfl
    have h3 : ("..." : String).length = 3 := rfl
    omega
  refine ⟨?_, fun h => ⟨?_, hlen h⟩, ?_, rfl, rfl, rfl, rfl, rfl⟩
  · by_cases h : s.length > limit
    · rw [hlen h]
    · unfold truncateText
      rw [if_neg h]
      omega
  · unfold truncateText strEndsWith
    rw [if_pos h]
    rw [String.data_append]
    rw [show (String.mk (s.data.take limit)).data = s.data.take limit from rfl]
    rw [List.reverse_append]
    exact listStartsWith_self_append _ _
  · intro h
    unfold truncateText
    rw [if_neg (by omega)]

set_option maxRecDepth 4000 in
/-- C4 counterexample: (a) a source text already ending in `...` and
within the limit is returned unchanged, so the ellipsis suffix appears
although the source did not exceed the limit, refuting the "if and only
if"; (b) the self-text of `get_post_details` is not truncated: a
504-character self-text yields a 504-character field, above every stated
limit-plus-3 bound, with no appended ellipsis. -/
theorem c4_counterexample :
    (truncateText 500 "wait..." = "wait..."
      ∧ strEndsWith "wait..." "..." = true
      ∧ "wait...".length ≤ 500)
    ∧ (jfield (get_post_details
          ⟨fun _ _ => .error "x",
           fun _ => .ok (⟨"p", "t", none, "s", 1, 0, 2, 0, "u", "l",
              String.mk (List.replicate 504 'a'), true, false, false, false, none, 0, none⟩, []),
           fun _ _ _ _ => .error "x", fun _ => .error "x"⟩ "p1" false 10) "selftext"
        = some (.str (String.mk (List.replicate 504 'a')))
      ∧ (String.mk (List.replicate 504 'a')).length = 504
      ∧ strEndsWith (String.mk (List.replicate 504 'a')) "..." = false) := by
  refine ⟨⟨by decide, by decide, by decide⟩, rfl, ?_, by decide⟩
  rw [String.length_mk, List.length_replicate]

/-- Witness for C4 at limit 5 with a long and a short source. -/
theorem c4_truncation_witness :
    ("toolongtext".length > 5
      ∧ strEndsWith (truncateText 5 "toolongtext") "..." = true
      ∧ (truncateText 5 "toolongtext").length = 5 + 3)
    ∧ ("hi".length ≤ 5 ∧ truncateText 5 "hi" = "hi") := by
  constructor
  · have h := (c4_truncation 5 "toolongtext"
      ⟨"p", "t", none, "s", 1, 0, 2, 0, "u", "l", "txt", true, false, false, false, none, 0, none⟩
      ⟨"c", some "a", "body", 1, 0, false, false, 0⟩
      ⟨"n", "t", "d", 1, 1, 0, false, "pd", "public", "en"⟩ "python").2.1 (by decide)
    exact ⟨by decide, h.1, h.2⟩
  · have h := (c4_truncation 5 "hi"
      ⟨"p", "t", none, "s", 1, 0, 2, 0, "u", "l", "txt", true, false, false, false, none, 0, none⟩
      ⟨"c", some "a", "body", 1, 0, false, false, 0⟩
      ⟨"n", "t", "d", 1, 1, 0, false, "pd", "public", "en"⟩ "python").2.2.1 (by decide)
    exact ⟨by decide, h⟩
